import Mathlib

/-! Shallow embedding of the shaker-dashboard metric pipeline of src/app.py:
record normalization (timestamp parsing, sorting by timestamp, calendar-date
extraction), guarded metric derivation, per-day aggregation with a threshold
flag, whole-run KPI reductions, and the ordered advisory rule evaluator.
Numeric cells are rational; a missing cell (NaN) is `Option.none`; a column
that is absent from the uploaded frame is tracked by a frame-level flag,
mirroring the `in df.columns` checks of the source. -/

namespace Shaker

/-- A numeric cell: `none` models a missing value (NaN). -/
abbrev Val := Option ℚ

/-- Digits of a character list read as a base-10 natural number; `none` when
the list is empty or contains a non-digit.  Models the strict numeric parse of
each timestamp component. -/
def digitsToNat (l : List Char) : Option Nat :=
  if l ≠ [] ∧ l.all Char.isDigit then
    some (l.foldl (fun a c => a * 10 + (c.toNat - 48)) 0)
  else none

/-- Split a character list on a separator character. -/
def splitOnChar (c : Char) : List Char → List (List Char)
  | [] => [[]]
  | x :: xs =>
    let r := splitOnChar c xs
    if x = c then [] :: r
    else
      match r with
      | [] => [[x]]
      | y :: ys => (x :: y) :: ys

/-- Parse a date string of the form YYYY/MM/DD into the order-preserving key
y*10000 + m*100 + d; fails on any other shape or out-of-range component.
Models the date half of the `pd.to_datetime` call at src/app.py:61. -/
def parseDate (s : String) : Option Nat :=
  match (splitOnChar '/' s.data).map digitsToNat with
  | [some y, some m, some d] =>
    if 1 ≤ m ∧ m ≤ 12 ∧ 1 ≤ d ∧ d ≤ 31 then some (y * 10000 + m * 100 + d)
    else none
  | _ => none

/-- Parse a time string of the form HH:MM:SS into seconds of the day; fails on
any other shape or out-of-range component. -/
def parseTime (s : String) : Option Nat :=
  match (splitOnChar ':' s.data).map digitsToNat with
  | [some h, some m, some sec] =>
    if h < 24 ∧ m < 60 ∧ sec < 60 then some (h * 3600 + m * 60 + sec)
    else none
  | _ => none

/-- Parse the combined date + time of one row into (timestamp key, date key).
The timestamp key dateKey*100000 + seconds orders rows lexicographically by
(date, time), and the date key is the calendar date used for grouping
(src/app.py:61-63). -/
def parseTimestamp (dateS timeS : String) : Option (Nat × Nat) :=
  match parseDate dateS, parseTime timeS with
  | some d, some t => some (d * 100000 + t, d)
  | _, _ => none

/-- One raw row of the uploaded frame: the two timestamp strings plus the
numeric cells of the optional columns.  `solids` is never supplied by input;
it is populated by derivation only. -/
structure Obs where
  dateStr : String
  timeStr : String
  shaker3 : Val
  wob : Val
  flow : Val
  util : Val
  solids : Val
deriving DecidableEq, Repr

/-- The uploaded frame: rows plus frame-level column-presence flags (the
`in df.columns` checks of the source) and, once normalization succeeded, the
aligned Timestamp/Date columns. -/
structure Frame where
  rows : List Obs
  hasShaker3 : Bool
  hasWob : Bool
  hasFlow : Bool
  hasUtil : Bool
  hasSolids : Bool
  tsDate : Option (List (Nat × Nat))
deriving DecidableEq, Repr

/-- A structured parse failure: the index of the first offending row and its
raw combined date/time value (src/app.py:64-65 reports the failure). -/
structure ParseErr where
  rowIdx : Nat
  value : String
deriving DecidableEq, Repr

/-- Parse every row's timestamp, failing on the first unparseable row with an
error identifying that row, as `pd.to_datetime` does over the whole column. -/
def parseAll : List Obs → Nat → Except ParseErr (List (Nat × Nat))
  | [], _ => .ok []
  | r :: rs, i =>
    match parseTimestamp r.dateStr r.timeStr with
    | none => .error ⟨i, r.dateStr ++ " " ++ r.timeStr⟩
    | some k =>
      match parseAll rs (i + 1) with
      | .error e => .error e
      | .ok ks => .ok (k :: ks)

/-- Insert a (row, timestamp/date) pair into a list sorted by timestamp key. -/
def insertTs (x : Obs × (Nat × Nat)) :
    List (Obs × (Nat × Nat)) → List (Obs × (Nat × Nat))
  | [] => [x]
  | y :: ys => if x.2.1 ≤ y.2.1 then x :: y :: ys else y :: insertTs x ys

/-- Sort rows (paired with their parsed timestamp/date) by timestamp key,
modelling the sort on the Timestamp column at src/app.py:62. -/
def sortTs (l : List (Obs × (Nat × Nat))) : List (Obs × (Nat × Nat)) :=
  l.foldr insertTs []

/-- The Record Normalizer (src/app.py:60-63): parse all timestamps, sort by
timestamp, attach the Timestamp/Date columns.  On any unparseable row the
whole step fails with a ParseErr and the frame is left untouched. -/
def normalize (f : Frame) : Except ParseErr Frame :=
  match parseAll f.rows 0 with
  | .error e => .error e
  | .ok ks =>
    let z := sortTs (f.rows.zip ks)
    .ok { f with rows := z.map Prod.fst, tsDate := some (z.map Prod.snd) }

/-- The fixed mesh-configuration table SCREEN_MESH_CAPACITY
(src/app.py:39-44). -/
def SCREEN_MESH_CAPACITY : List (String × ℚ) :=
  [("API 100", 250), ("API 140", 200), ("API 170", 160), ("API 200", 120)]

/-- Capacity looked up for a mesh-type label (src/app.py:50-51). -/
def lookupCapacity (m : String) : Option ℚ :=
  (SCREEN_MESH_CAPACITY.find? (fun p => p.1 == m)).map Prod.snd

/-- The Metric Derivation Engine (src/app.py:67-69): only when the
utilization column is absent and both weight-on-bit and flow columns are
present, add the solids-volume-rate column wob*flow/100 and the utilization
column solids/capacity*100; a missing cell in either input yields a missing
derived cell. -/
def derive (cap : ℚ) (f : Frame) : Frame :=
  if !f.hasUtil && f.hasWob && f.hasFlow then
    { f with
      hasSolids := true
      hasUtil := true
      rows := f.rows.map fun r =>
        let s : Val := r.wob.bind fun w => r.flow.map fun fl => w * fl / 100
        { r with solids := s, util := s.map fun sv => sv / cap * 100 } }
  else f

/-- The values of a column that are actually present (pandas skips NaN cells
in mean/max). -/
def presentVals : List Val → List ℚ
  | [] => []
  | none :: vs => presentVals vs
  | some v :: vs => v :: presentVals vs

/-- Arithmetic mean over the present values of a column; `none` (NaN) when no
value is present. -/
def meanPresent (vs : List Val) : Val :=
  match presentVals vs with
  | [] => none
  | p :: ps => some ((p :: ps).sum / ((p :: ps).length : ℚ))

/-- Maximum over the present values of a column; `none` (NaN) when no value is
present. -/
def maxPresent (vs : List Val) : Val :=
  match presentVals vs with
  | [] => none
  | p :: ps => some (ps.foldl max p)

/-- Comparison of a possibly-missing value against a constant: NaN compares
false, as in pandas. -/
def gtOpt (x : Val) (c : ℚ) : Bool :=
  match x with
  | some v => decide (c < v)
  | none => false

/-- Whole-run KPI reduction avg_util (src/app.py:73): the mean of the
utilization column when it exists, the literal scalar 0 otherwise. -/
def avgUtilKPI (f : Frame) : Val :=
  if f.hasUtil then meanPresent (f.rows.map Obs.util) else some 0

/-- Whole-run KPI reduction avg_flow (src/app.py:74). -/
def avgFlowKPI (f : Frame) : Val :=
  if f.hasFlow then meanPresent (f.rows.map Obs.flow) else some 0

/-- Whole-run KPI reduction shaker_max (src/app.py:75). -/
def maxShaker3KPI (f : Frame) : Val :=
  if f.hasShaker3 then maxPresent (f.rows.map Obs.shaker3) else some 0

/-- The advisory classification tiers of the spec; the three message strings
of src/app.py:140-145 map to the first three tiers and the fallback info
message of src/app.py:150 to Insufficient. -/
inductive Tier
  | Overload
  | HighThroughput
  | Normal
  | Insufficient
deriving DecidableEq, Repr

/-- The Advisory Rule Evaluator (src/app.py:131-150): availability gate on
the three required columns, then ordered rules over the whole-run KPI scalars
with first match winning. -/
def advisoryTier (f : Frame) : Tier :=
  if f.hasUtil && f.hasShaker3 && f.hasFlow then
    if gtOpt (avgUtilKPI f) 85 && gtOpt (maxShaker3KPI f) 95 then .Overload
    else if gtOpt (avgUtilKPI f) 75 && gtOpt (avgFlowKPI f) 600 then .HighThroughput
    else .Normal
  else .Insufficient

/-- One row of the daily summary table built at src/app.py:99-105. -/
structure DailyRow where
  date : Nat
  avgUtil : Val
  avgFlow : Val
  avgShaker3 : Val
  maxShaker3 : Val
  exceeds : Bool
deriving DecidableEq, Repr

/-- Insert a date key into a strictly-ascending duplicate-free list of date
keys, keeping it strictly ascending and duplicate-free. -/
def insertDate (d : Nat) : List Nat → List Nat
  | [] => [d]
  | x :: xs =>
    if d < x then d :: x :: xs
    else if d = x then x :: xs
    else x :: insertDate d xs

/-- The distinct date keys of a list, in ascending order: the group keys that
a pandas groupby on the Date column produces (sorted, one per distinct key). -/
def distinctSorted (l : List Nat) : List Nat :=
  l.foldr insertDate []

/-- The summary row of one calendar date: means over the present values of the
rows of that date, the max of shaker-3, and the strict threshold flag of
src/app.py:105. -/
def mkDaily (thr : ℚ) (paired : List (Obs × Nat)) (d : Nat) : DailyRow :=
  let grp := (paired.filter fun p => p.2 == d).map Prod.fst
  let au := meanPresent (grp.map Obs.util)
  { date := d
    avgUtil := au
    avgFlow := meanPresent (grp.map Obs.flow)
    avgShaker3 := meanPresent (grp.map Obs.shaker3)
    maxShaker3 := maxPresent (grp.map Obs.shaker3)
    exceeds := gtOpt au thr }

/-- The Aggregator (src/app.py:98-105): group by the Date column and produce
one summary row per distinct date, ascending.  When the Date column is absent
(timestamp parsing failed) or any of the three aggregated columns is absent,
the groupby/agg raises a KeyError that the source catches at src/app.py:117,
so no summary table is produced at all. -/
def dailySummary (thr : ℚ) (f : Frame) : Option (List DailyRow) :=
  match f.tsDate with
  | none => none
  | some td =>
    if f.hasUtil && f.hasFlow && f.hasShaker3 then
      some ((distinctSorted (td.map Prod.snd)).map
        (mkDaily thr (f.rows.zip (td.map Prod.snd))))
    else none

/-- The observable outcome of one run: the reported parse failure if any, the
daily summary table if one was produced, and the advisory classification
(always produced — the source reaches the advisory block in every run). -/
structure RunResult where
  parseError : Option ParseErr
  daily : Option (List DailyRow)
  advisory : Tier
deriving DecidableEq, Repr

/-- One full run of the pipeline on an uploaded frame (src/app.py:55-150):
normalization (whose failure is reported but does not stop the run),
derivation, daily aggregation and advisory evaluation. -/
def runPipeline (cap thr : ℚ) (f0 : Frame) : RunResult :=
  match normalize f0 with
  | .error e =>
    let f := derive cap f0
    { parseError := some e, daily := dailySummary thr f, advisory := advisoryTier f }
  | .ok fn =>
    let f := derive cap fn
    { parseError := none, daily := dailySummary thr f, advisory := advisoryTier f }

/-- Shorthand for an input row (solids never supplied by input). -/
def mkObs (d t : String) (s3 w fl u : Val) : Obs :=
  ⟨d, t, s3, w, fl, u, none⟩

/-- A frame whose single row has an unparseable time string, with the three
advisory columns present. -/
def exBad : Frame :=
  ⟨[mkObs "2024/01/01" "bad" (some 50) none (some 100) (some 50)],
    true, false, true, true, false, none⟩

/-- A frame realising the rule-precedence example: one row with
utilization 90, shaker-3 96, flow 650, all three columns present. -/
def exF2 : Frame :=
  ⟨[mkObs "2024/01/01" "00:00:00" (some 96) none (some 650) (some 90)],
    true, false, true, true, false, none⟩

/-- A frame with a supplied utilization column. -/
def exF3 : Frame :=
  ⟨[mkObs "2024/01/01" "00:00:00" (some 50) (some 40) (some 100) (some 80)],
    true, true, true, true, false, none⟩

/-- A normalized frame whose single row has utilization exactly 80. -/
def exF4 : Frame :=
  ⟨[mkObs "2024/01/01" "00:00:00" (some 50) none (some 100) (some 80)],
    true, false, true, true, false, some [(2024010100000, 20240101)]⟩

/-- The single daily-summary row of exF4 at threshold 80. -/
def exRow4 : DailyRow :=
  mkDaily 80 (exF4.rows.zip [20240101]) 20240101

/-- A frame whose flow-rate column is entirely absent. -/
def exF5 : Frame :=
  ⟨[mkObs "2024/01/01" "00:00:00" (some 96) (some 40) none (some 90)],
    true, true, false, true, false, none⟩

/-- A frame whose flow-rate column is entirely absent, for the KPI
reduction counterexample. -/
def exF6 : Frame :=
  ⟨[mkObs "2024/01/01" "00:00:00" (some 96) none none (some 90)],
    true, false, false, true, false, none⟩

/-- A normalized frame lacking the utilization column (and the
weight-on-bit column needed to derive it). -/
def exF9 : Frame :=
  ⟨[mkObs "2024/01/01" "00:00:00" (some 50) none (some 100) none],
    true, false, true, false, false, some [(2024010100000, 20240101)]⟩

/-- A normalized two-day frame with all aggregated columns present. -/
def exF9b : Frame :=
  ⟨[mkObs "2024/01/01" "00:00:00" (some 50) none (some 100) (some 70),
    mkObs "2024/01/02" "00:00:00" (some 60) none (some 110) (some 90)],
    true, false, true, true, false,
    some [(2024010100000, 20240101), (2024010200000, 20240102)]⟩

/-- Derivation never touches the Timestamp/Date columns. -/
theorem derive_tsDate (cap : ℚ) (f : Frame) : (derive cap f).tsDate = f.tsDate := by
  unfold derive; split <;> rfl

/-- Derivation is the identity when the flow column is absent (the guard at
src/app.py:67 requires the flow column). -/
theorem derive_of_not_hasFlow (cap : ℚ) (f : Frame) (h : f.hasFlow = false) :
    derive cap f = f := by
  unfold derive; rw [h]; simp

/-- Claim C3: when the input already contains the utilization column, the
derivation step performs no computation at all — the frame, hence every
supplied utilization value and the absence of a solids-volume-rate column, is
unchanged. -/
theorem C3_derive_noop_when_util_present (cap : ℚ) (f : Frame)
    (h : f.hasUtil = true) : derive cap f = f := by
  unfold derive; rw [h]; simp

/-- Witness for C3 on a concrete frame with a supplied utilization column. -/
theorem C3_witness : exF3.hasUtil = true ∧ derive 250 exF3 = exF3 :=
  ⟨rfl, C3_derive_noop_when_util_present 250 exF3 rfl⟩

/-- Claim C8: the derivation step is idempotent — running it twice with the
same mesh capacity gives the same frame (hence the same utilization values on
every observation) as running it once. -/
theorem C8_derive_idempotent (cap : ℚ) (f : Frame) :
    derive cap (derive cap f) = derive cap f := by
  by_cases h : (!f.hasUtil && f.hasWob && f.hasFlow) = true
  · unfold derive
    rw [if_pos h]
    simp
  · unfold derive
    rw [if_neg h, if_neg h]

/-- Claim C10: every capacity value produced by the fixed mesh table is
strictly positive, hence nonzero, so the division by mesh capacity in the
utilization derivation is well-defined. -/
theorem C10_capacity_positive (m : String) (c : ℚ)
    (h : lookupCapacity m = some c) : 0 < c ∧ c ≠ 0 := by
  unfold lookupCapacity at h
  cases hf : SCREEN_MESH_CAPACITY.find? (fun p => p.1 == m) with
  | none => rw [hf] at h; cases h
  | some p =>
    rw [hf] at h
    have hp : p ∈ SCREEN_MESH_CAPACITY := List.mem_of_find?_eq_some hf
    have hc : c = p.2 := by injection h with h; exact h.symm
    subst hc
    simp only [SCREEN_MESH_CAPACITY, List.mem_cons, List.not_mem_nil, or_false] at hp
    rcases hp with rfl | rfl | rfl | rfl <;> norm_num

/-- Witness for C10 at the first table entry. -/
theorem C10_witness : 0 < (250 : ℚ) ∧ (250 : ℚ) ≠ 0 :=
  C10_capacity_positive "API 100" 250 rfl

/-- Claim C6, corrected: the whole-run reductions are mean/max over only the
present values of a column when the column exists, but a column that is
entirely absent makes the corresponding reduction the literal scalar 0 rather
than an omitted output (src/app.py:73-75). -/
theorem C6_kpi_reductions (f : Frame) :
    (f.hasUtil = false → avgUtilKPI f = some 0)
    ∧ (f.hasFlow = false → avgFlowKPI f = some 0)
    ∧ (f.hasShaker3 = false → maxShaker3KPI f = some 0)
    ∧ (f.hasUtil = true → avgUtilKPI f = meanPresent (f.rows.map Obs.util))
    ∧ (f.hasFlow = true → avgFlowKPI f = meanPresent (f.rows.map Obs.flow))
    ∧ (f.hasShaker3 = true → maxShaker3KPI f = maxPresent (f.rows.map Obs.shaker3)) := by
  refine ⟨?_, ?_, ?_, ?_, ?_, ?_⟩ <;> intro h <;>
    simp [avgUtilKPI, avgFlowKPI, maxShaker3KPI, h]

/-- Witness for C6 on a frame without a flow column. -/
theorem C6_witness :
    avgFlowKPI exF6 = some 0 ∧ avgUtilKPI exF6 = meanPresent (exF6.rows.map Obs.util) :=
  ⟨(C6_kpi_reductions exF6).2.1 rfl, (C6_kpi_reductions exF6).2.2.2.1 rfl⟩

/-- Counterexample to C6 as stated: for the frame exF6 the flow column is
entirely absent, yet the flow reduction is reported as the scalar 0 instead
of being omitted. -/
theorem C6_counterexample : exF6.hasFlow = false ∧ avgFlowKPI exF6 = some 0 :=
  ⟨rfl, rfl⟩

/-- Claim C5: whenever the three required columns are not all available the
advisory evaluator yields Insufficient, whatever the KPI scalars are; in
particular a dataset whose flow column is entirely absent still yields
Insufficient after derivation. -/
theorem C5_insufficient (f : Frame) (cap : ℚ) :
    ((f.hasUtil = false ∨ f.hasShaker3 = false ∨ f.hasFlow = false) →
      advisoryTier f = Tier.Insufficient)
    ∧ (f.hasFlow = false → advisoryTier (derive cap f) = Tier.Insufficient) := by
  constructor
  · intro h
    rcases h with h | h | h <;> simp [advisoryTier, h]
  · intro h
    rw [derive_of_not_hasFlow cap f h]
    simp [advisoryTier, h]

/-- Witness for C5 on a concrete frame without a flow column. -/
theorem C5_witness : advisoryTier (derive 200 exF5) = Tier.Insufficient :=
  (C5_insufficient exF5 200).2 rfl

/-- Claim C2: with all three required columns available, the Overload rule is
checked first and wins whenever its two conditions hold, regardless of the
flow scalar (so even when the HighThroughput conditions also hold). -/
theorem C2_overload_precedence (f : Frame) (u s : ℚ)
    (h1 : f.hasUtil = true) (h2 : f.hasShaker3 = true) (h3 : f.hasFlow = true)
    (hu : avgUtilKPI f = some u) (hs : maxShaker3KPI f = some s)
    (hu85 : 85 < u) (hs95 : 95 < s) :
    advisoryTier f = Tier.Overload := by
  simp [advisoryTier, h1, h2, h3, hu, hs, gtOpt, hu85, hs95]

/-- Witness for C2: utilization 90, shaker-3 max 96, flow 650 (so the
HighThroughput conditions 90 > 75 and 650 > 600 also hold) gives Overload. -/
theorem C2_witness : advisoryTier exF2 = Tier.Overload :=
  C2_overload_precedence exF2 90 96 rfl rfl rfl
    (by norm_num [avgUtilKPI, meanPresent, presentVals, exF2, mkObs])
    (by norm_num [maxShaker3KPI, maxPresent, presentVals, exF2, mkObs])
    (by norm_num) (by norm_num)

/-- Membership in an insertion is membership in the inserted element or the
original list. -/
theorem mem_insertDate {a d : Nat} {l : List Nat} :
    a ∈ insertDate d l ↔ a = d ∨ a ∈ l := by
  induction l with
  | nil => simp [insertDate]
  | cons x xs ih =>
    unfold insertDate
    by_cases h1 : d < x
    · simp [h1]
    · by_cases h2 : d = x
      · simp [h1, h2]
      · simp [h1, h2, ih]
        tauto

/-- Insertion preserves strict ascending order. -/
theorem insertDate_pairwise {d : Nat} {l : List Nat}
    (h : l.Pairwise (· < ·)) : (insertDate d l).Pairwise (· < ·) := by
  induction l with
  | nil => simp [insertDate]
  | cons x xs ih =>
    rcases List.pairwise_cons.1 h with ⟨hx, hxs⟩
    unfold insertDate
    by_cases h1 : d < x
    · rw [if_pos h1]
      refine List.pairwise_cons.2 ⟨?_, h⟩
      intro b hb
      rcases List.mem_cons.1 hb with rfl | hb
      · exact h1
      · exact h1.trans (hx b hb)
    · rw [if_neg h1]
      by_cases h2 : d = x
      · rw [if_pos h2]
        exact h
      · rw [if_neg h2]
        have hxd : x < d :=
          lt_of_le_of_ne (Nat.le_of_not_lt h1) (fun he => h2 he.symm)
        refine List.pairwise_cons.2 ⟨?_, ih hxs⟩
        intro b hb
        rcases mem_insertDate.1 hb with rfl | hb
        · exact hxd
        · exact hx b hb

/-- The distinct sorted dates are exactly the dates of the input list. -/
theorem mem_distinctSorted {a : Nat} {l : List Nat} :
    a ∈ distinctSorted l ↔ a ∈ l := by
  induction l with
  | nil => simp [distinctSorted]
  | cons x xs ih =>
    show a ∈ insertDate x (distinctSorted xs) ↔ a ∈ x :: xs
    rw [mem_insertDate]
    simp [ih]

/-- The distinct dates are strictly ascending (in particular duplicate-free). -/
theorem distinctSorted_pairwise (l : List Nat) :
    (distinctSorted l).Pairwise (· < ·) := by
  induction l with
  | nil => exact List.Pairwise.nil
  | cons x xs ih =>
    show (insertDate x (distinctSorted xs)).Pairwise (· < ·)
    exact insertDate_pairwise ih

/-- Claim C9, corrected: when the utilization, flow and shaker-3 columns are
all present on the normalized frame, the Aggregator produces exactly one
daily-summary row per distinct date of the Date column, the set of summary
dates is exactly the set of observation dates, and the rows are strictly
ascending by date. -/
theorem C9_grouping_completeness (thr : ℚ) (f : Frame) (td : List (Nat × Nat))
    (ht : f.tsDate = some td) (hu : f.hasUtil = true) (hf : f.hasFlow = true)
    (hs : f.hasShaker3 = true) :
    ∃ ds, dailySummary thr f = some ds
      ∧ (ds.map DailyRow.date).Pairwise (· < ·)
      ∧ (∀ d, d ∈ ds.map DailyRow.date ↔ d ∈ td.map Prod.snd) := by
  have hdates :
      (DailyRow.date ∘ mkDaily thr (f.rows.zip (td.map Prod.snd))) = id :=
    funext fun d => rfl
  refine ⟨(distinctSorted (td.map Prod.snd)).map
      (mkDaily thr (f.rows.zip (td.map Prod.snd))), ?_, ?_, ?_⟩
  · unfold dailySummary
    rw [ht]
    simp [hu, hf, hs]
  · rw [List.map_map, hdates, List.map_id]
    exact distinctSorted_pairwise _
  · intro d
    rw [List.map_map, hdates, List.map_id]
    exact mem_distinctSorted

/-- Witness for C9 on a concrete two-day frame. -/
theorem C9_witness :
    ∃ ds, dailySummary 80 exF9b = some ds
      ∧ (ds.map DailyRow.date).Pairwise (· < ·)
      ∧ (∀ d, d ∈ ds.map DailyRow.date ↔
          d ∈ ([(2024010100000, 20240101), (2024010200000, 20240102)] :
            List (Nat × Nat)).map Prod.snd) :=
  C9_grouping_completeness 80 exF9b _ rfl rfl rfl rfl

/-- Counterexample to C9 as stated: exF9 is a normalized series (derivation
leaves it unchanged) with one distinct date, yet the Aggregator produces no
daily-summary rows at all because the utilization column is absent (the
source catches the KeyError at src/app.py:117). -/
theorem C9_counterexample :
    derive 200 exF9 = exF9
    ∧ exF9.tsDate = some [(2024010100000, 20240101)]
    ∧ dailySummary 80 (derive 200 exF9) = none :=
  ⟨rfl, rfl, rfl⟩

/-- Claim C4: every daily-summary row is flagged exactly when its average
utilization strictly exceeds the threshold; a row whose average utilization
equals the threshold is not flagged. -/
theorem C4_exceeds_strict (thr : ℚ) (f : Frame) (ds : List DailyRow)
    (row : DailyRow) (v : ℚ)
    (h1 : dailySummary thr f = some ds) (h2 : row ∈ ds) (h3 : row.avgUtil = some v) :
    (row.exceeds = true ↔ thr < v) ∧ (v = thr → row.exceeds = false) := by
  have hx : row.exceeds = gtOpt row.avgUtil thr := by
    rcases htd : f.tsDate with _ | td
    · unfold dailySummary at h1
      rw [htd] at h1
      exact absurd h1 (by simp)
    · unfold dailySummary at h1
      rw [htd] at h1
      dsimp only at h1
      by_cases hc : (f.hasUtil && f.hasFlow && f.hasShaker3) = true
      · rw [if_pos hc] at h1
        have hds := Option.some.inj h1
        subst hds
        rcases List.mem_map.1 h2 with ⟨d, _, hrow⟩
        subst hrow
        rfl
      · rw [if_neg hc] at h1
        exact absurd h1 (by simp)
  constructor
  · rw [hx, h3]
    simp [gtOpt]
  · intro hv
    rw [hx, h3, hv]
    simp [gtOpt]

/-- Witness for C4: a summary row whose average utilization is exactly the
threshold 80 is not flagged. -/
theorem C4_witness : exRow4.avgUtil = some 80 ∧ exRow4.exceeds = false :=
  ⟨by norm_num [exRow4, mkDaily, exF4, mkObs, meanPresent, presentVals,
      List.filter, List.zip, List.zipWith],
   (C4_exceeds_strict 80 exF4 [exRow4] exRow4 80 rfl (by simp)
      (by norm_num [exRow4, mkDaily, exF4, mkObs, meanPresent, presentVals,
        List.filter, List.zip, List.zipWith])).2 rfl⟩

/-- A list containing a row with an unparseable timestamp makes the whole
column parse fail, whatever the starting index. -/
theorem parseAll_error_of_bad : ∀ (rows : List Obs),
    (∃ r ∈ rows, parseTimestamp r.dateStr r.timeStr = none) →
    ∀ i, ∃ e, parseAll rows i = .error e := by
  intro rows
  induction rows with
  | nil =>
    intro h i
    rcases h with ⟨r, hr, _⟩
    cases hr
  | cons x xs ih =>
    intro h i
    rcases h with ⟨r, hr, hnone⟩
    rcases List.mem_cons.1 hr with rfl | hr
    · refine ⟨⟨i, r.dateStr ++ " " ++ r.timeStr⟩, ?_⟩
      unfold parseAll
      rw [hnone]
    · cases hx : parseTimestamp x.dateStr x.timeStr with
      | none =>
        refine ⟨⟨i, x.dateStr ++ " " ++ x.timeStr⟩, ?_⟩
        unfold parseAll
        rw [hx]
      | some k =>
        rcases ih ⟨r, hr, hnone⟩ (i + 1) with ⟨e, he⟩
        refine ⟨e, ?_⟩
        unfold parseAll
        rw [hx, he]

/-- Claim C1, corrected: a dataset with an unparseable date/time string makes
the run report a structured parse failure and produce no daily-summary rows,
but the run does not abort — the advisory classification is still computed
from the unnormalized (but possibly derived) data. -/
theorem C1_parse_failure_no_abort (cap thr : ℚ) (f0 : Frame)
    (h0 : f0.tsDate = none)
    (h : ∃ r ∈ f0.rows, parseTimestamp r.dateStr r.timeStr = none) :
    ∃ e, (runPipeline cap thr f0).parseError = some e
      ∧ (runPipeline cap thr f0).daily = none
      ∧ (runPipeline cap thr f0).advisory = advisoryTier (derive cap f0) := by
  rcases parseAll_error_of_bad f0.rows h 0 with ⟨e, he⟩
  have hn : normalize f0 = .error e := by
    unfold normalize
    rw [he]
  have hd : dailySummary thr (derive cap f0) = none := by
    unfold dailySummary
    rw [derive_tsDate, h0]
  refine ⟨e, ?_, ?_, ?_⟩
  · unfold runPipeline
    rw [hn]
  · unfold runPipeline
    rw [hn]
    simp [hd]
  · unfold runPipeline
    rw [hn]

/-- Witness for C1 on the concrete frame exBad (bad time string "bad"). -/
theorem C1_witness :
    ∃ e, (runPipeline 200 80 exBad).parseError = some e
      ∧ (runPipeline 200 80 exBad).daily = none
      ∧ (runPipeline 200 80 exBad).advisory = advisoryTier (derive 200 exBad) :=
  C1_parse_failure_no_abort 200 80 exBad rfl
    ⟨mkObs "2024/01/01" "bad" (some 50) none (some 100) (some 50),
      by simp [exBad], rfl⟩

/-- Counterexample to C1 as stated: on exBad the run reports the parse
failure of row 0 and produces no daily summary, yet an advisory result
(tier Normal) is still produced — the run does not abort. -/
theorem C1_counterexample :
    (runPipeline 200 80 exBad).parseError = some ⟨0, "2024/01/01 bad"⟩
    ∧ (runPipeline 200 80 exBad).daily = none
    ∧ (runPipeline 200 80 exBad).advisory = Tier.Normal := by
  refine ⟨rfl, rfl, ?_⟩
  show advisoryTier (derive 200 exBad) = Tier.Normal
  have hd : derive 200 exBad = exBad := rfl
  rw [hd]
  norm_num [advisoryTier, avgUtilKPI, avgFlowKPI, maxShaker3KPI, meanPresent,
    maxPresent, presentVals, gtOpt, exBad, mkObs]

end Shaker
